import Mathlib

/-!
Verification of the EVE gamelog parser (`src/combat_logs/log_parser.py`).

The Python module is regex-driven, so the embedding contains a small
backtracking regular-expression engine faithful to the subset of Python `re`
used by the source: literals, character classes (`.`, `\d`, `[0-9]`, `[^x]`),
greedy and lazy star/plus over a character class, greedy optional groups,
alternation, named capture groups (including empty ones), negative lookahead,
back-references, and the `$` anchor.  Matching is anchored at the start of the
string, as with `re.match`.  Preference order (greedy = longest first,
lazy = shortest first, alternatives left to right, full backtracking through
the continuation) follows Python's engine.

Numbers: Python's `int(...)` on a digit capture is modelled as `Nat`;
`float(...)` on a `\d+\.\d+` capture is modelled exactly as a rational
(the decimal literals occurring in the claims are exactly representable).
Damage is therefore `ℚ`.

Python exceptions are modelled by an `Except Err` result; `Err` distinguishes
`ValueError` kinds (the only kind caught by the dialect-detection fallback)
from `AssertionError`, `KeyError`, `IndexError` and `TypeError`.
-/

/-- Character classes appearing in the source's patterns. -/
inductive CClass where
  | any : CClass
  | digit : CClass
  | notIn : List Char → CClass
deriving DecidableEq

/-- Membership of a character in a class.  As in Python (no DOTALL), a dot
does not match a newline, while a negated class does. -/
def CClass.mem : CClass → Char → Bool
  | .any, c => c ≠ '\n'
  | .digit, c => c.isDigit
  | .notIn l, c => ¬ l.contains c

/-- Regular-expression abstract syntax: exactly the constructs used by
`log_parser.py`.  A pattern is a `List RE` (sequence).  Stars and pluses only
ever apply to one-character classes in the source, which the syntax reflects.
The `Bool` on `star` is true for a lazy (`*?`) star. -/
inductive RE where
  | lit : String → RE
  | cls : CClass → RE
  | star : CClass → Bool → RE
  | opt : List RE → RE
  | alt : List (List RE) → RE
  | grp : String → List RE → RE
  | nla : List RE → RE
  | bref : String → RE
  | eos : RE

/-- Capture environment: group name to captured characters, most recent
binding first (a later capture of the same group shadows an earlier one,
as in Python). -/
abbrev Caps := List (String × List Char)

/-- Look up a capture group; `none` means the group did not participate. -/
def capsGet (caps : Caps) (n : String) : Option (List Char) :=
  (caps.find? (fun p => p.1 == n)).map (·.2)

/-- Length of the maximal run of class characters at the head of the input. -/
def runLen (c : CClass) : List Char → Nat
  | [] => 0
  | ch :: t => if c.mem ch then runLen c t + 1 else 0

/-- Backtracking matcher in continuation-passing style.  `matSeq fuel p s caps k`
tries to match the sequence `p` against a prefix of `s`, extending `caps`, and
calls `k` on the remainder; alternatives are tried in Python's preference
order with full backtracking through the continuation.  The fuel only bounds
recursion depth (one unit per atom entered along a path), never the amount of
backtracking, so any fuel beyond the pattern's nesting-aware length is
equivalent. -/
def matSeq : Nat → List RE → List Char → Caps →
    (List Char → Caps → Option Caps) → Option Caps
  | 0, _, _, _, _ => none
  | _ + 1, [], s, caps, k => k s caps
  | fuel + 1, r :: rest, s, caps, k =>
    match r with
    | .lit l =>
      let lc := l.toList
      if s.take lc.length = lc then matSeq fuel rest (s.drop lc.length) caps k
      else none
    | .cls c =>
      match s with
      | [] => none
      | ch :: t => if c.mem ch then matSeq fuel rest t caps k else none
    | .star c lazy =>
      let n := runLen c s
      let cands := if lazy then (List.range (n + 1)).map (fun i => s.drop i)
                   else (List.range (n + 1)).map (fun i => s.drop (n - i))
      cands.findSome? (fun s2 => matSeq fuel rest s2 caps k)
    | .opt rs =>
      match matSeq fuel (rs ++ rest) s caps k with
      | some res => some res
      | none => matSeq fuel rest s caps k
    | .alt alts => alts.findSome? (fun a => matSeq fuel (a ++ rest) s caps k)
    | .grp name rs =>
      matSeq fuel rs s caps (fun s2 caps2 =>
        matSeq fuel rest s2 ((name, s.take (s.length - s2.length)) :: caps2) k)
    | .nla rs =>
      match matSeq fuel rs s caps (fun _ c => some c) with
      | some _ => none
      | none => matSeq fuel rest s caps k
    | .bref name =>
      match capsGet caps name with
      | none => none
      | some v =>
        if s.take v.length = v then matSeq fuel rest (s.drop v.length) caps k
        else none
    | .eos =>
      match s with
      | [] => matSeq fuel rest s caps k
      | _ :: _ => none

/-- Match a pattern against the start of a string (Python `re.match`):
the continuation accepts any remainder, `$` appears explicitly where the
source's patterns have it. -/
def reMatch (p : List RE) (s : String) : Option Caps :=
  matSeq 500 p s.toList [] (fun _ c => some c)

/-- Names of the capture groups declared in a pattern (Python `groupdict`
keys), computed with ample fuel over the nested syntax. -/
def declFuel : Nat → List RE → List String
  | 0, _ => []
  | _ + 1, [] => []
  | fuel + 1, r :: rest =>
    (match r with
     | .grp n rs => n :: declFuel fuel rs
     | .opt rs => declFuel fuel rs
     | .alt alts => (alts.map (declFuel fuel)).flatten
     | .nla rs => declFuel fuel rs
     | _ => []) ++ declFuel fuel rest

def decl (p : List RE) : List String := declFuel 1000 p

/-- Result of a successful match: the participating captures (as strings)
and the groups declared by the matched pattern. -/
structure MRes where
  caps : List (String × String)
  declared : List String
deriving DecidableEq

def strCaps (c : Caps) : List (String × String) :=
  c.map (fun p => (p.1, String.mk p.2))

/-- `m.group(name)` value: some captured string, or none if the group did
not participate in the match. -/
def mGet (m : MRes) (n : String) : Option String :=
  ((m.caps.find? (fun p => p.1 == n)).map (·.2))

/-- Python exceptions raised by the parser, by kind.  The dialect-detection
fallback in `_parse_data` catches exactly the `ValueError` kinds. -/
inductive Err where
  | unknownEntryType (tag : String)
  | cannotParseComplex (data : String)
  | cannotParseSimple (data : String)
  | cannotParseV3 (data : String)
  | dateError (msg : String)
  | assertionError
  | keyError (k : String)
  | indexError (k : String)
  | typeError
deriving DecidableEq

def Err.isValueError : Err → Bool
  | .unknownEntryType _ => true
  | .cannotParseComplex _ => true
  | .cannotParseSimple _ => true
  | .cannotParseV3 _ => true
  | .dateError _ => true
  | _ => false

/-- The input text the error message carries, if any: the offending category
tag, or the offending combat text.  `dateError` messages carry only a
field-range description, no input text. -/
def Err.rawText : Err → Option String
  | .unknownEntryType tag => some tag
  | .cannotParseComplex s => some s
  | .cannotParseSimple s => some s
  | .cannotParseV3 s => some s
  | _ => none

/-- `m.group(name)`: `IndexError` if the matched pattern declares no such
group, else the (possibly absent) capture. -/
def MRes.group (m : MRes) (n : String) : Except Err (Option String) :=
  if m.declared.contains n then .ok (mGet m n) else .error (.indexError n)

/-- `m.groupdict()[name]`: `KeyError` if the matched pattern declares no such
group, else the (possibly absent) capture. -/
def MRes.dget (m : MRes) (n : String) : Except Err (Option String) :=
  if m.declared.contains n then .ok (mGet m n) else .error (.keyError n)

/-- `name in m.groupdict()`. -/
def MRes.has (m : MRes) (n : String) : Bool := m.declared.contains n

/-- Try an ordered list of compiled patterns, returning the first match
(the per-dialect `for rex in ...: m = rex.match(...)` loops). -/
def firstMatch (ps : List (List RE)) (s : String) : Option MRes :=
  ps.findSome? (fun p => (reMatch p s).map (fun c => ⟨strCaps c, decl p⟩))

/-- Python `int` on a digit string. -/
def natOfDigits (s : String) : Nat :=
  s.toList.foldl (fun a c => a * 10 + (c.toNat - '0'.toNat)) 0

/-- Split a character list at the dots (the `List Char` counterpart of
`String.split('.')`). -/
def splitDot : List Char → List (List Char)
  | [] => [[]]
  | c :: t =>
    if c = '.' then [] :: splitDot t
    else
      match splitDot t with
      | [] => [[c]]
      | h :: r => (c :: h) :: r

/-- Python `float` on a `\d+\.\d+` capture, modelled exactly as a rational
(integer part plus fractional part). -/
def ratOfDecimal (s : String) : ℚ :=
  match splitDot s.toList with
  | [a, b] =>
    (natOfDigits (String.mk a) : ℚ) +
      (natOfDigits (String.mk b) : ℚ) / ((10 : ℚ) ^ b.length)
  | _ => (natOfDigits s : ℚ)

/-! ### The compiled phrase patterns, transcribed from the source -/

def digitC : RE := .cls .digit

/-- `\d+` (and `[0-9]+`). -/
def digitsP : List RE := [digitC, .star .digit false]

/-- `(?:<color[^>]*>)?` -/
def colorOpt : RE := .opt [.lit "<color", .star (.notIn ['>']) false, .lit ">"]

/-- `_ATTACKER_PATTERNS[0]`: `(?P<attacker>You)r (?:group of )?(?P<weapon>.*?)` -/
def aPat1 : List RE :=
  [.grp "attacker" [.lit "You"], .lit "r ", .opt [.lit "group of "],
   .grp "weapon" [.star .any true]]

/-- `_ATTACKER_PATTERNS[1]`: `(?P<weapon>.*?) belonging to (?P<attacker>.*?)` -/
def aPat2 : List RE :=
  [.grp "weapon" [.star .any true], .lit " belonging to ",
   .grp "attacker" [.star .any true]]

/-- `_ATTACKER_PATTERNS[2]`: `(?P<attacker>.*?)(?P<weapon>)` -/
def aPat3 : List RE :=
  [.grp "attacker" [.star .any true], .grp "weapon" []]

/-- `(?P<target>.*?)` -/
def tgtLazy : RE := .grp "target" [.star .any true]

/-- `_DAMAGE_PATTERN`: `[^,]*?(?P<damage>\d+\.\d+)?(?:</b>)? damage` -/
def dmgC : List RE :=
  [.star (.notIn [',']) true,
   .opt [.grp "damage" (digitsP ++ [.lit "."] ++ digitsP)],
   .opt [.lit "</b>"], .lit " damage"]

/-- The eleven `_VERB_PHRASES`, minus the substituted attacker part. -/
def verbMids : List (List RE) :=
  [ [.lit " ", .opt [.alt [[.lit "lightly "], [.lit "heavily "]]],
     .lit "hits ", tgtLazy, .lit ", "] ++ dmgC ++ [.lit ".", .eos],
    [.lit " misses ", tgtLazy, .lit " completely.", .nla dmgC, .eos],
    [.lit " aims well at ", tgtLazy, .lit ", "] ++ dmgC ++ [.lit ".", .eos],
    [.lit " barely scratches ", tgtLazy, .lit ", "] ++ dmgC ++ [.lit ".", .eos],
    [.lit " places an excellent hit on ", tgtLazy, .lit ", "] ++ dmgC ++
      [.lit ".", .eos],
    [.lit " lands a hit on ", tgtLazy, .lit " which glances off, "] ++ dmgC ++
      [.lit ".", .eos],
    [.lit " is well aimed at ", tgtLazy, .lit ", "] ++ dmgC ++ [.lit ".", .eos],
    [.lit " barely misses ", tgtLazy, .lit ".", .nla dmgC, .eos],
    [.lit " glances off ", tgtLazy, .lit ", "] ++ dmgC ++ [.lit ".", .eos],
    [.lit " strikes ", tgtLazy, .lit " perfectly, "] ++ dmgC ++ [.lit ".", .eos],
    [.lit " perfectly strikes ", tgtLazy, .lit ", "] ++ dmgC ++ [.lit ".", .eos] ]

/-- `_VERB_PHRASE_RES`: for each verb phrase, the three attacker variants,
each prefixed by the optional color tag, in the source's iteration order. -/
def complexPhraseRes : List (List RE) :=
  verbMids.flatMap (fun m =>
    [colorOpt :: (aPat1 ++ m), colorOpt :: (aPat2 ++ m), colorOpt :: (aPat3 ++ m)])

/-- `%(simple_damage)s`: `<b>(?P<damage>\d+)</b> damage(?: \(Wrecking!\))?` -/
def simpleDmg : List RE :=
  [.lit "<b>", .grp "damage" digitsP, .lit "</b> damage",
   .opt [.lit " (Wrecking!)"]]

def hitOrStrike : RE := .alt [[.lit "hits"], [.lit "strikes"]]

/-- `_SIMPLIFIED_PHRASE_RES`, in order. -/
def simplifiedPhraseRes : List (List RE) :=
  [ [colorOpt, .grp "attacker" [.star .any false], .lit " ", hitOrStrike,
     .lit " ", .grp "target" [.lit "you"], .lit " for "] ++ simpleDmg ++ [.eos],
    [colorOpt, .grp "weapon" [.star .any false], .lit " ", hitOrStrike,
     .lit " ", .grp "target" [.star .any false], .lit " for "] ++ simpleDmg ++
      [.eos],
    [colorOpt, .grp "attacker" [.star .any false], .lit " misses ",
     .grp "target" [.lit "you"], .grp "damage" [], .eos],
    [colorOpt, .grp "weapon" [.star .any false], .lit " misses ",
     .grp "target" [.star (.notIn ['.']) false], .grp "damage" [], .eos],
    [colorOpt, .grp "attacker" [.star .any false], .lit " miss ",
     .grp "target" [.lit "you"], .grp "damage" [], .eos],
    [colorOpt, .grp "weapon" [.star .any false], .lit " miss ",
     .grp "target" [.star (.notIn ['.']) false], .grp "damage" [], .eos] ]

/-- `<color[^>]*>` -/
def colorTag : List RE := [.lit "<color", .star (.notIn ['>']) false, .lit ">"]

/-- `<font[^>]*>` -/
def fontTag : List RE := [.lit "<font", .star (.notIn ['>']) false, .lit ">"]

/-- `_V3_PHRASE_RES`, in order.  In the second phrase the source's
back-reference `\2` refers to group number 2, which is the `weapon` group. -/
def v3PhraseRes : List (List RE) :=
  [ colorTag ++ [.lit "<b>", .grp "damage" digitsP, .lit "</b> "] ++ colorTag ++
      fontTag ++ [.grp "preposition" [.star .any false], .lit "</font> <b>"] ++
      colorTag ++ [.grp "object" [.star .any false], .lit "</b>"] ++ fontTag ++
      colorTag ++
      [.opt [.lit " - ", .grp "weapon" [.star .any false]], .lit " - ",
       .alt [[.lit "Glances Off"], [.lit "Grazes"], [.lit "Hits"],
             [.lit "Penetrates"], [.lit "Smashes"], [.lit "Wrecks"]], .eos],
    [.grp "attacker" [.lit "You"], .lit "r ", .grp "weapon" [.star .any false],
     .lit " misses ", .grp "target" [.star .any false], .lit " completely - ",
     .bref "weapon", .eos],
    [.grp "attacker" [.star .any false], .lit " misses ",
     .grp "target" [.lit "you"], .lit " completely", .eos],
    colorTag ++ [.lit "<b>", .grp "ew" [.star .any false], .lit "</b> "] ++
      colorTag ++ fontTag ++ [.lit "from</font> "] ++ colorTag ++
      [.lit "<b>", .grp "attacker" [.star .any false], .lit "</b> "] ++
      colorTag ++ fontTag ++ [.lit "to <b>"] ++ colorTag ++
      [.lit "</font>", .grp "target" [.star .any false], .lit "!", .eos] ]

/-- `_LOG_LINE_RE`:
`^\[ <timestamp> \] \((?P<type>[^)]+)\) (?P<data>.+)$`. -/
def logLinePattern : List RE :=
  [.lit "[ ", .grp "year" [digitC, digitC, digitC, digitC], .lit ".",
   .grp "month" [digitC, digitC], .lit ".", .grp "day" [digitC, digitC],
   .lit " ", .grp "hour" [digitC, digitC], .lit ":",
   .grp "min" [digitC, digitC], .lit ":", .grp "sec" [digitC, digitC],
   .lit " ] (", .grp "type" [.cls (.notIn [')']), .star (.notIn [')']) false],
   .lit ") ", .grp "data" [.cls .any, .star .any false], .eos]

/-! ### Data model -/

/-- Log dialects (`Log.UNKNOWN/COMPLEX/SIMPLIFIED/V3`, encoded 0..3 in the
source). -/
inductive Dialect where
  | unknown | complex | simplified | v3
deriving DecidableEq

/-- Entry categories (`LogEntry.UNKNOWN..NONE`, encoded 0..7 in the source). -/
inductive Category where
  | unknown | combat | info | notify | warning | question | hint | none_
deriving DecidableEq

/-- A UTC instant with second resolution (`datetime.datetime(..., tzinfo=UTC())`;
the offset is always zero, so the zone is not represented). -/
structure Timestamp where
  year : Nat
  month : Nat
  day : Nat
  hour : Nat
  minute : Nat
  second : Nat
deriving DecidableEq

def isLeap (y : Nat) : Bool := y % 4 = 0 && (y % 100 ≠ 0 || y % 400 = 0)

def daysInMonth (y m : Nat) : Nat :=
  if m = 2 then (if isLeap y then 29 else 28)
  else if m = 4 || m = 6 || m = 9 || m = 11 then 30
  else 31

/-- `datetime.datetime(y, mo, d, h, mi, s)`: field range validation with the
CPython `ValueError` messages. -/
def mkDatetime (y mo d h mi s : Nat) : Except Err Timestamp :=
  if ¬ (1 ≤ y ∧ y ≤ 9999) then .error (.dateError "year is out of range")
  else if ¬ (1 ≤ mo ∧ mo ≤ 12) then .error (.dateError "month must be in 1..12")
  else if ¬ (1 ≤ d ∧ d ≤ daysInMonth y mo) then
    .error (.dateError "day is out of range for month")
  else if ¬ (h ≤ 23) then .error (.dateError "hour must be in 0..23")
  else if ¬ (mi ≤ 59) then .error (.dateError "minute must be in 0..59")
  else if ¬ (s ≤ 59) then .error (.dateError "second must be in 0..59")
  else .ok ⟨y, mo, d, h, mi, s⟩

/-- The attacker/target/weapon/damage fields of a `CombatLogEntry`.
Each of the three string fields holds what Python stores: a captured string,
a literal, or `None` (modelled `none`) for a non-participating optional
capture. -/
structure CombatFields where
  attacker : Option String
  target : Option String
  weapon : Option String
  damage : ℚ
deriving DecidableEq

/-- A parsed log entry: `combat` corresponds to `CombatLogEntry` (whose
`entry_type` is always `COMBAT`), `generic` to a plain `LogEntry`. -/
inductive LogEntry where
  | generic (timestamp : Timestamp) (entry_type : Category) (data : String)
  | combat (timestamp : Timestamp) (data : String) (fields : CombatFields)
deriving DecidableEq

/-! ### The dialect parsers (`CombatLogEntry._parse_*`) -/

/-- `CombatLogEntry._parse_complex`: first matching verb-phrase pattern;
attacker, weapon and target are taken verbatim from the captures;
damage is `0` when the capture is absent, else `float(...)`. -/
def parse_complex (data : String) : Except Err CombatFields :=
  match firstMatch complexPhraseRes data with
  | none => .error (.cannotParseComplex data)
  | some m =>
    match m.group "target" with
    | .error e => .error e
    | .ok tgt =>
      match m.group "attacker" with
      | .error e => .error e
      | .ok att =>
        match m.group "weapon" with
        | .error e => .error e
        | .ok wpn =>
          match m.group "damage" with
          | .error e => .error e
          | .ok dmg =>
            .ok ⟨att, tgt, wpn,
                 match dmg with
                 | none => 0
                 | some s => ratOfDecimal s⟩

/-- Damage in `_parse_simple`: `int(damage) if damage else 0` (both an absent
and an empty capture are falsy). -/
def simpleDamage : Option String → ℚ
  | some s => if s.isEmpty then 0 else (natOfDigits s : ℚ)
  | none => 0

/-- `CombatLogEntry._parse_simple`: first matching simplified pattern; when
the target is the player, the weapon is the empty string and the attacker is
the captured `attacker` group; otherwise the attacker is `"You"` and the
weapon is the captured `weapon` group (either lookup raises `IndexError` when
the matched pattern lacks the group). -/
def parse_simple (data : String) : Except Err CombatFields :=
  match firstMatch simplifiedPhraseRes data with
  | none => .error (.cannotParseSimple data)
  | some m =>
    match m.group "target" with
    | .error e => .error e
    | .ok tgt =>
      if tgt = some "you" then
        match m.group "attacker" with
        | .error e => .error e
        | .ok att =>
          match m.group "damage" with
          | .error e => .error e
          | .ok dmg => .ok ⟨att, tgt, some "", simpleDamage dmg⟩
      else
        match m.group "weapon" with
        | .error e => .error e
        | .ok wpn =>
          match m.group "damage" with
          | .error e => .error e
          | .ok dmg => .ok ⟨some "You", tgt, wpn, simpleDamage dmg⟩

/-- Attacker/target determination in `_parse_v3`.  When the matched pattern
declares `preposition`, the source asserts the capture is `"to"` or `"from"`
before using it; any other captured text raises `AssertionError`. -/
def v3AttTgt (m : MRes) : Except Err (Option String × Option String) :=
  if m.has "preposition" then
    match m.dget "preposition" with
    | .error e => .error e
    | .ok p =>
      if p = some "to" ∨ p = some "from" then
        if p = some "to" then
          match m.dget "object" with
          | .error e => .error e
          | .ok ob => .ok (some "You", ob)
        else
          match m.dget "object" with
          | .error e => .error e
          | .ok ob => .ok (ob, some "you")
      else .error .assertionError
  else
    match m.dget "target" with
    | .error e => .error e
    | .ok tgt =>
      if tgt = some "you" then
        match m.dget "attacker" with
        | .error e => .error e
        | .ok att => .ok (att, tgt)
      else .ok (some "You", tgt)

/-- Damage in `_parse_v3`: `int(d['damage'])` when the matched pattern
declares a damage group, else `0`.  `int(None)` would raise `TypeError`
(not reachable: the only `damage` group in the V3 phrases is mandatory). -/
def v3Damage (m : MRes) : Except Err ℚ :=
  if m.has "damage" then
    match m.dget "damage" with
    | .error e => .error e
    | .ok (some s) => .ok ((natOfDigits s : ℚ))
    | .ok none => .error .typeError
  else .ok 0

/-- `CombatLogEntry._parse_v3`: first matching V3 pattern, then the
attacker/target logic, the weapon (empty when the player is the target, else
`d['weapon']`, a `KeyError` when the pattern lacks the group), then damage. -/
def parse_v3 (data : String) : Except Err CombatFields :=
  match firstMatch v3PhraseRes data with
  | none => .error (.cannotParseV3 data)
  | some m =>
    match v3AttTgt m with
    | .error e => .error e
    | .ok (att, tgt) =>
      match (if tgt = some "you" then .ok (some "") else m.dget "weapon") with
      | .error e => .error e
      | .ok wpn =>
        match v3Damage m with
        | .error e => .error e
        | .ok dmg => .ok ⟨att, tgt, wpn, dmg⟩

/-- `CombatLogEntry._parse_data`: with a concrete dialect, use only that
dialect's parser; with `unknown`, try V3, then Simplified, then Complex,
locking in the first that succeeds — where each fallback happens only on a
`ValueError` (`except ValueError` in the source). -/
def parse_data (data : String) (d : Dialect) :
    Except Err (CombatFields × Dialect) :=
  match d with
  | .v3 => (parse_v3 data).map (fun f => (f, .v3))
  | .complex => (parse_complex data).map (fun f => (f, .complex))
  | .simplified => (parse_simple data).map (fun f => (f, .simplified))
  | .unknown =>
    match parse_v3 data with
    | .ok f => .ok (f, .v3)
    | .error e =>
      if e.isValueError then
        match parse_simple data with
        | .ok f => .ok (f, .simplified)
        | .error e2 =>
          if e2.isValueError then
            (parse_complex data).map (fun f => (f, .complex))
          else .error e2
      else .error e

/-! ### Entry classifier and log assembler -/

/-- The integer fields and text parts extracted by `_LOG_LINE_RE`. -/
structure HeaderRes where
  year : Nat
  month : Nat
  day : Nat
  hour : Nat
  minute : Nat
  second : Nat
  type : String
  data : String
deriving DecidableEq

/-- Match a line against `_LOG_LINE_RE` and read out the groups
(`none` = not a new entry).  All groups are mandatory in the pattern. -/
def logLineMatch (line : String) : Option HeaderRes :=
  match reMatch logLinePattern line with
  | none => none
  | some c =>
    let g := fun (n : String) => String.mk ((capsGet c n).getD [])
    some ⟨natOfDigits (g "year"), natOfDigits (g "month"),
          natOfDigits (g "day"), natOfDigits (g "hour"),
          natOfDigits (g "min"), natOfDigits (g "sec"), g "type", g "data"⟩

/-- The fixed category-tag table of `LogEntry.parse_line` (the `combat` tag
takes the combat branch instead). -/
def categoryOf (tag : String) : Except Err Category :=
  if tag = "info" then .ok .info
  else if tag = "notify" then .ok .notify
  else if tag = "warning" then .ok .warning
  else if tag = "question" then .ok .question
  else if tag = "hint" then .ok .hint
  else if tag = "None" then .ok .none_
  else .error (.unknownEntryType tag)

/-- All tags accepted by `parse_line`. -/
def knownTags : List String :=
  ["combat", "info", "notify", "warning", "question", "hint", "None"]

/-- `LogEntry.parse_line`: header match (else "not a new entry"), timestamp
construction, then the combat branch or the category table.  The mutable
`log.log_type` of the source is threaded explicitly. -/
def parse_line (line : String) (d : Dialect) :
    Except Err (Option LogEntry × Dialect) :=
  match logLineMatch line with
  | none => .ok (none, d)
  | some r =>
    match mkDatetime r.year r.month r.day r.hour r.minute r.second with
    | .error e => .error e
    | .ok ts =>
      if r.type = "combat" then
        match parse_data r.data d with
        | .error e => .error e
        | .ok (f, d') => .ok (some (.combat ts r.data f), d')
      else
        match categoryOf r.type with
        | .error e => .error e
        | .ok t => .ok (some (.generic ts t r.data), d)

/-- Python `str.rstrip()` (ASCII whitespace). -/
def pyIsSpace (c : Char) : Bool :=
  c = ' ' || c = '\t' || c = '\n' || c = '\r' || c = '\x0b' || c = '\x0c'

def rstrip (s : String) : String :=
  String.mk ((s.toList.reverse.dropWhile pyIsSpace).reverse)

/-- The entry loop of `Log.__init__`: each line is right-stripped and fed to
`parse_line`; `None` results (continuation lines) are filtered out; any
exception aborts the whole list. -/
def buildEntries : List String → Dialect → Except Err (List LogEntry × Dialect)
  | [], d => .ok ([], d)
  | l :: ls, d =>
    match parse_line (rstrip l) d with
    | .error e => .error e
    | .ok (entry?, d') =>
      match buildEntries ls d' with
      | .error e => .error e
      | .ok (es, d'') =>
        .ok ((match entry? with | none => es | some e => e :: es), d'')

/-- The `Log` aggregate. -/
structure Log where
  listener : Option String
  start_time : Timestamp
  log_type : Dialect
  log_entries : List LogEntry
deriving DecidableEq

/-- `Log.__init__` given the header collaborator's output: the dialect starts
`UNKNOWN` and the body lines are parsed in order; any failure aborts
construction and no `Log` value is produced. -/
def mkLog (listener : Option String) (start_time : Timestamp)
    (lines : List String) : Except Err Log :=
  (buildEntries lines .unknown).map
    (fun p => ⟨listener, start_time, p.2, p.1⟩)

/-! ### Helper instances and lemmas -/

instance {ε α : Type} [DecidableEq ε] [DecidableEq α] :
    DecidableEq (Except ε α) := fun a b =>
  match a, b with
  | .ok x, .ok y =>
    if h : x = y then .isTrue (by rw [h])
    else .isFalse (by intro hc; cases hc; exact h rfl)
  | .error x, .error y =>
    if h : x = y then .isTrue (by rw [h])
    else .isFalse (by intro hc; cases hc; exact h rfl)
  | .ok _, .error _ => .isFalse (by intro hc; cases hc)
  | .error _, .ok _ => .isFalse (by intro hc; cases hc)

/-- In every attacker/target pair `_parse_v3` computes, either the target is
the player or the attacker is the player marker. -/
theorem v3AttTgt_player (m : MRes) (att tgt : Option String)
    (h : v3AttTgt m = .ok (att, tgt)) : tgt = some "you" ∨ att = some "You" := by
  unfold v3AttTgt at h
  split at h
  · split at h
    · exact Except.noConfusion h
    · split at h
      · split at h
        · split at h
          · exact Except.noConfusion h
          · simp only [Except.ok.injEq, Prod.mk.injEq] at h
            exact Or.inr h.1.symm
        · split at h
          · exact Except.noConfusion h
          · simp only [Except.ok.injEq, Prod.mk.injEq] at h
            exact Or.inl h.2.symm
      · exact Except.noConfusion h
  · split at h
    · exact Except.noConfusion h
    · rename_i tgt0 htgt0
      split at h
      · rename_i hyou
        split at h
        · exact Except.noConfusion h
        · simp only [Except.ok.injEq, Prod.mk.injEq] at h
          exact Or.inl (h.2.symm.trans hyou)
      · simp only [Except.ok.injEq, Prod.mk.injEq] at h
        exact Or.inr h.1.symm

/-! ### Claim C2 -/

/-- C2: when the dialect is Unknown, `_parse_data` attempts V3, then
Simplified, then Complex, in that fixed order; the first parser to succeed
supplies the entry's fields and becomes the locked dialect (each fallback
happening only on a `ValueError`).  In particular the combat text
`Enemy misses you completely`, matchable by both the V3 and the Simplified
phrasings, locks V3. -/
theorem C2_unknown_dialect_priority :
    (∀ data f, parse_v3 data = .ok f →
      parse_data data .unknown = .ok (f, .v3)) ∧
    (∀ data e f, parse_v3 data = .error e → e.isValueError = true →
      parse_simple data = .ok f →
      parse_data data .unknown = .ok (f, .simplified)) ∧
    (∀ data e e2, parse_v3 data = .error e → e.isValueError = true →
      parse_simple data = .error e2 → e2.isValueError = true →
      parse_data data .unknown =
        (parse_complex data).map (fun f => (f, .complex))) ∧
    ((∃ f, parse_v3 "Enemy misses you completely" = .ok f) ∧
     (∃ f, parse_simple "Enemy misses you completely" = .ok f) ∧
     parse_data "Enemy misses you completely" .unknown =
       .ok (⟨some "Enemy", some "you", some "", 0⟩, .v3)) := by
  refine ⟨?_, ?_, ?_, ⟨_, rfl⟩, ⟨_, rfl⟩, rfl⟩
  · intro data f h
    simp [parse_data, h]
  · intro data e f h1 h2 h3
    simp [parse_data, h1, h2, h3]
  · intro data e e2 h1 h2 h3 h4
    simp [parse_data, h1, h2, h3, h4]

/-- Witness for C2: concrete application of the first conjunct. -/
theorem C2_unknown_dialect_priority_witness :
    parse_data "Enemy misses you completely" .unknown =
      .ok (⟨some "Enemy", some "you", some "", 0⟩, .v3) :=
  C2_unknown_dialect_priority.1 _ _ rfl

/-! ### Claim C3 -/

/-- C3: once the dialect is a concrete value X, `_parse_data` uses only X's
matcher and returns X unchanged; a combat line matching none of X's phrases
is a fatal parse error even when another dialect would match it — witnessed
by `Enemy misses you completely`, which parses under Unknown (via V3) but is
a `cannotParseComplex` error on a log locked to Complex. -/
theorem C3_lock_is_final :
    (∀ data, parse_data data .v3 =
      (parse_v3 data).map (fun f => (f, Dialect.v3))) ∧
    (∀ data, parse_data data .simplified =
      (parse_simple data).map (fun f => (f, Dialect.simplified))) ∧
    (∀ data, parse_data data .complex =
      (parse_complex data).map (fun f => (f, Dialect.complex))) ∧
    (parse_data "Enemy misses you completely" .complex =
      .error (.cannotParseComplex "Enemy misses you completely") ∧
     (∃ p, parse_data "Enemy misses you completely" .unknown = .ok p)) :=
  ⟨fun _ => rfl, fun _ => rfl, fun _ => rfl, rfl, ⟨_, rfl⟩⟩

/-! ### Claim C4 -/

/-- C4 counterexample: on `Your Missile misses Enemy Frigate` with dialect
Unknown, the produced entry's weapon is not `"Missile"` (the greedy
Simplified weapon capture is `"Your Missile"`), refuting the claimed entry. -/
theorem C4_counterexample :
    ∃ e d, parse_data "Your Missile misses Enemy Frigate" .unknown =
      .ok (e, d) ∧ e.weapon ≠ some "Missile" :=
  ⟨_, _, rfl, by decide⟩

/-- C4 as amended: the line `Your Missile misses Enemy Frigate` on an
Unknown-dialect log produces attacker `"You"`, target `"Enemy Frigate"`,
weapon `"Your Missile"` (the whole greedy capture, retaining the leading
`Your`), damage 0, and locks the dialect to Simplified. -/
theorem C4_amended :
    parse_data "Your Missile misses Enemy Frigate" .unknown =
      .ok (⟨some "You", some "Enemy Frigate", some "Your Missile", 0⟩,
           .simplified) := rfl

/-! ### Claim C6 -/

/-- C6: the Complex line `You hits Target Rat, doing 12.5 damage.` on an
Unknown-dialect log produces attacker `"You"`, target `"Target Rat"`, empty
weapon, damage 12.5 exactly, and locks the dialect to Complex. -/
theorem C6_complex_end_to_end :
    parse_data "You hits Target Rat, doing 12.5 damage." .unknown =
      .ok (⟨some "You", some "Target Rat", some "", ratOfDecimal "12.5"⟩,
           .complex) ∧
    ratOfDecimal "12.5" = 25 / 2 :=
  ⟨rfl, by simp [ratOfDecimal, splitDot, natOfDigits]; norm_num⟩

/-! ### Claim C1 -/

/-- C1 counterexample: the Complex parser on
`Your Gun hits you, doing 5.0 damage.` produces an entry whose target is
`"you"` while its weapon is `"Gun"` (not empty) and its attacker is `"You"` —
refuting both halves of the claimed invariant for the Complex dialect. -/
theorem C1_counterexample :
    ∃ e, parse_complex "Your Gun hits you, doing 5.0 damage." = .ok e ∧
      e.target = some "you" ∧ e.weapon ≠ some "" ∧ e.attacker = some "You" :=
  ⟨_, rfl, rfl, by decide, rfl⟩

/-- C1 as amended: for every entry produced by the Simplified or V3 parsers,
a target of `"you"` forces an empty weapon, and a target other than `"you"`
forces attacker `"You"` (the attacker may also be `"You"` when the target is
`"you"`, as on `You hits you for <b>5</b> damage`); the Complex parser copies
attacker, target and weapon verbatim from the captures and guarantees
neither implication, as `Enemy hits Target, doing 5.0 damage.` shows. -/
theorem C1_amended :
    (∀ data e, parse_simple data = .ok e →
      (e.target = some "you" → e.weapon = some "") ∧
      (e.target ≠ some "you" → e.attacker = some "You")) ∧
    (∀ data e, parse_v3 data = .ok e →
      (e.target = some "you" → e.weapon = some "") ∧
      (e.target ≠ some "you" → e.attacker = some "You")) ∧
    (∃ e, parse_complex "Enemy hits Target, doing 5.0 damage." = .ok e ∧
      e.target ≠ some "you" ∧ e.attacker ≠ some "You") ∧
    (∃ e, parse_simple "You hits you for <b>5</b> damage" = .ok e ∧
      e.target = some "you" ∧ e.attacker = some "You") := by
  refine ⟨?_, ?_, ⟨_, rfl, by decide, by decide⟩, ⟨_, rfl, rfl, rfl⟩⟩
  · intro data e h
    unfold parse_simple at h
    split at h
    · exact Except.noConfusion h
    · split at h
      · exact Except.noConfusion h
      · rename_i tgt htgt
        split at h
        · rename_i hyou
          split at h
          · exact Except.noConfusion h
          · split at h
            · exact Except.noConfusion h
            · injection h with h
              subst h
              exact ⟨fun _ => rfl, fun hne => absurd hyou hne⟩
        · rename_i hyou
          split at h
          · exact Except.noConfusion h
          · split at h
            · exact Except.noConfusion h
            · injection h with h
              subst h
              exact ⟨fun hy => absurd hy hyou, fun _ => rfl⟩
  · intro data e h
    unfold parse_v3 at h
    split at h
    · exact Except.noConfusion h
    · rename_i m hm
      split at h
      · exact Except.noConfusion h
      · rename_i p att tgt hat
        split at h
        · exact Except.noConfusion h
        · rename_i wpn hwpn
          split at h
          · exact Except.noConfusion h
          · injection h with h
            subst h
            constructor
            · intro hy
              rw [if_pos hy] at hwpn
              injection hwpn with hwpn
              exact hwpn.symm
            · intro hne
              rcases v3AttTgt_player m att tgt hat with hyou | hY
              · exact absurd hyou hne
              · exact hY

/-- Witness for C1 (amended): the Simplified entry for
`Kestrel hits you for <b>7</b> damage` has an empty weapon. -/
theorem C1_amended_witness :
    (⟨some "Kestrel", some "you", some "", (7 : ℚ)⟩ : CombatFields).weapon =
      some "" :=
  (C1_amended.1 "Kestrel hits you for <b>7</b> damage" _ rfl).1 rfl

/-! ### Claim C7 -/

/-- Unfolding equation for one step of the assembler's line loop. -/
theorem buildEntries_cons (l : String) (ls : List String) (d : Dialect) :
    buildEntries (l :: ls) d =
      match parse_line (rstrip l) d with
      | .error e => .error e
      | .ok (entry?, d') =>
        match buildEntries ls d' with
        | .error e => .error e
        | .ok (es, d'') =>
          .ok ((match entry? with | none => es | some e => e :: es), d'') :=
  rfl

/-- C7: a line that does not match the entry-header grammar makes
`parse_line` signal "not a new entry" (`None`, dialect unchanged), and the
assembler drops it: inserting any such line anywhere leaves the parse result
— entries and dialect alike — exactly as without it. -/
theorem C7_continuation_lines_dropped :
    ∀ (pre post : List String) (line : String) (d : Dialect),
      logLineMatch (rstrip line) = none →
      parse_line (rstrip line) d = .ok (none, d) ∧
      buildEntries (pre ++ line :: post) d = buildEntries (pre ++ post) d := by
  intro pre post line d hm
  have hpl : ∀ d' : Dialect, parse_line (rstrip line) d' = .ok (none, d') := by
    intro d'
    unfold parse_line
    rw [hm]
  refine ⟨hpl d, ?_⟩
  induction pre generalizing d with
  | nil =>
    show buildEntries (line :: post) d = buildEntries post d
    rw [buildEntries_cons, hpl d]
    cases hb : buildEntries post d with
    | error e => simp only [hb]
    | ok p =>
      obtain ⟨es, d''⟩ := p
      simp only [hb]
  | cons l ls ih =>
    show buildEntries (l :: (ls ++ line :: post)) d =
      buildEntries (l :: (ls ++ post)) d
    rw [buildEntries_cons, buildEntries_cons]
    cases hp : parse_line (rstrip l) d with
    | error e => rfl
    | ok p =>
      obtain ⟨entry?, d'⟩ := p
      simp only [ih d']

/-- Witness for C7: a concrete continuation line is dropped. -/
theorem C7_witness :
    parse_line (rstrip "no header here") .unknown = .ok (none, .unknown) ∧
    buildEntries ["no header here"] .unknown = buildEntries [] .unknown :=
  C7_continuation_lines_dropped [] [] "no header here" .unknown rfl

/-! ### Claim C5 -/

/-- A successful `m.group(n)` lookup returns the capture. -/
theorem group_ok (m : MRes) (n : String) (x : Option String)
    (h : m.group n = .ok x) : x = mGet m n := by
  unfold MRes.group at h
  split at h
  · injection h with h2
    exact h2.symm
  · exact Except.noConfusion h

/-- A successful `d[n]` lookup returns the capture. -/
theorem dget_ok (m : MRes) (n : String) (x : Option String)
    (h : m.dget n = .ok x) : x = mGet m n := by
  unfold MRes.dget at h
  split at h
  · injection h with h2
    exact h2.symm
  · exact Except.noConfusion h

/-- The Simplified damage rule always yields a natural number. -/
theorem simpleDamage_natCast (x : Option String) :
    ∃ n : ℕ, simpleDamage x = (n : ℚ) := by
  cases x with
  | none => exact ⟨0, by simp [simpleDamage]⟩
  | some s =>
    by_cases hs : s.isEmpty
    · exact ⟨0, by simp [simpleDamage, hs]⟩
    · exact ⟨natOfDigits s, by simp [simpleDamage, hs]⟩

/-- C5: in every dialect, a missing (or, for Simplified, empty) damage
capture yields damage 0, and a present numeric capture yields exactly the
captured number — as an integer for Simplified and V3 (`int(...)`), and as
the exact decimal value for Complex (`float(...)`). -/
theorem C5_damage_rule :
    (∀ data m e, firstMatch complexPhraseRes data = some m →
      parse_complex data = .ok e →
      e.damage = (match mGet m "damage" with
                  | none => 0
                  | some s => ratOfDecimal s)) ∧
    (∀ data m e, firstMatch simplifiedPhraseRes data = some m →
      parse_simple data = .ok e →
      e.damage = simpleDamage (mGet m "damage") ∧
      ∃ n : ℕ, e.damage = (n : ℚ)) ∧
    (∀ data m e, firstMatch v3PhraseRes data = some m →
      parse_v3 data = .ok e →
      (m.has "damage" = false → e.damage = 0) ∧
      (∀ s, m.has "damage" = true → mGet m "damage" = some s →
        e.damage = (natOfDigits s : ℚ)) ∧
      ∃ n : ℕ, e.damage = (n : ℚ)) := by
  refine ⟨?_, ?_, ?_⟩
  · intro data m e hm he
    unfold parse_complex at he
    simp only [hm] at he
    split at he
    · exact Except.noConfusion he
    · split at he
      · exact Except.noConfusion he
      · split at he
        · exact Except.noConfusion he
        · split at he
          · exact Except.noConfusion he
          · rename_i dmg hdmg
            injection he with he
            subst he
            rw [← group_ok m "damage" dmg hdmg]
  · intro data m e hm he
    unfold parse_simple at he
    simp only [hm] at he
    split at he
    · exact Except.noConfusion he
    · split at he
      · split at he
        · exact Except.noConfusion he
        · split at he
          · exact Except.noConfusion he
          · rename_i dmg hdmg
            injection he with he
            subst he
            rw [← group_ok m "damage" dmg hdmg]
            exact ⟨rfl, simpleDamage_natCast dmg⟩
      · split at he
        · exact Except.noConfusion he
        · split at he
          · exact Except.noConfusion he
          · rename_i dmg hdmg
            injection he with he
            subst he
            rw [← group_ok m "damage" dmg hdmg]
            exact ⟨rfl, simpleDamage_natCast dmg⟩
  · intro data m e hm he
    unfold parse_v3 at he
    simp only [hm] at he
    split at he
    · exact Except.noConfusion he
    · split at he
      · exact Except.noConfusion he
      · split at he
        · exact Except.noConfusion he
        · rename_i dmg hdm
          injection he with he
          subst he
          unfold v3Damage at hdm
          split at hdm
          · rename_i hhas
            split at hdm
            · exact Except.noConfusion hdm
            · rename_i s hds
              injection hdm with hdm
              subst hdm
              refine ⟨fun hf => ?_, fun s2 _ hmg => ?_,
                      ⟨natOfDigits s, rfl⟩⟩
              · rw [hf] at hhas
                exact (Bool.false_ne_true hhas).elim
              · have hs : some s = mGet m "damage" :=
                  dget_ok m "damage" (some s) hds
                rw [← hs] at hmg
                injection hmg with hmg
                rw [hmg]
            · exact Except.noConfusion hdm
          · rename_i hhas
            injection hdm with hdm
            subst hdm
            exact ⟨fun _ => rfl, fun s2 ht _ => absurd ht hhas,
                   ⟨0, by simp⟩⟩

/-- Witness for C5: the Simplified entry for
`Enemy Drone hits you for <b>57</b> damage` takes its damage from the
captured group. -/
theorem C5_witness :
    ∃ m e,
      firstMatch simplifiedPhraseRes
        "Enemy Drone hits you for <b>57</b> damage" = some m ∧
      parse_simple "Enemy Drone hits you for <b>57</b> damage" = .ok e ∧
      e.damage = simpleDamage (mGet m "damage") := by
  have h := C5_damage_rule.2.1
    "Enemy Drone hits you for <b>57</b> damage" _ _ rfl rfl
  exact ⟨_, _, rfl, rfl, h.1⟩

/-! ### Claim C10 -/

/-- C10: texts matching the V3 structured multi-tag pattern with a
preposition other than `to`/`from` exist (witness text with preposition
`at`), and every such text makes `_parse_v3` fail with an `AssertionError`
rather than the dialect `ValueError` — so during dialect detection there is
no fallback to Simplified or Complex for it. -/
theorem C10_preposition_assert :
    (∃ m, firstMatch v3PhraseRes
      "<color><b>5</b> <color><font>at</font> <b><color>Enemy</b><font><color> - Hits"
        = some m ∧ mGet m "preposition" = some "at") ∧
    (∀ data m p, firstMatch v3PhraseRes data = some m →
      m.has "preposition" = true → mGet m "preposition" = some p →
      p ≠ "to" → p ≠ "from" →
      parse_v3 data = .error .assertionError ∧
      parse_data data .unknown = .error .assertionError) := by
  refine ⟨⟨_, rfl, rfl⟩, ?_⟩
  intro data m p hm hhas hp hto hfrom
  have hd : m.dget "preposition" = .ok (some p) := by
    unfold MRes.dget
    rw [if_pos (show m.declared.contains "preposition" = true from hhas), hp]
  have hat : v3AttTgt m = .error .assertionError := by
    unfold v3AttTgt
    rw [if_pos hhas]
    simp only [hd]
    rw [if_neg (by simp [hto, hfrom])]
  have hv3 : parse_v3 data = .error .assertionError := by
    unfold parse_v3
    simp only [hm, hat]
  refine ⟨hv3, ?_⟩
  simp [parse_data, hv3, Err.isValueError]

/-- Witness for C10: the universal part applied to the concrete
preposition-`at` text. -/
theorem C10_witness :
    parse_v3
      "<color><b>5</b> <color><font>at</font> <b><color>Enemy</b><font><color> - Hits"
      = .error .assertionError ∧
    parse_data
      "<color><b>5</b> <color><font>at</font> <b><color>Enemy</b><font><color> - Hits"
      .unknown = .error .assertionError :=
  C10_preposition_assert.2 _ _ _ rfl rfl rfl (by decide) (by decide)

/-! ### Claim C9 -/

/-- C9 counterexample: the line `[ 2020.13.01 00:00:00 ] (bogus) x` matches
the entry-header grammar and its tag `bogus` is outside the category table,
yet it fails with the calendar-range error — the timestamp is constructed
before the tag is examined — not with an unknown-category error. -/
theorem C9_counterexample :
    parse_line "[ 2020.13.01 00:00:00 ] (bogus) x" .unknown =
      .error (.dateError "month must be in 1..12") ∧
    (∃ r, logLineMatch "[ 2020.13.01 00:00:00 ] (bogus) x" = some r ∧
      r.type = "bogus" ∧ knownTags.contains r.type = false) ∧
    Err.dateError "month must be in 1..12" ≠ .unknownEntryType "bogus" :=
  ⟨rfl, ⟨_, rfl, rfl, rfl⟩, by decide⟩

/-- C9 as amended: for a header-matching line whose timestamp fields are
calendar-valid, the tag is mapped by the exact fixed table (combat→Combat
branch, info→Info, notify→Notify, warning→Warning, question→Question,
hint→Hint, literal `None`→None), and any other tag fails with the fatal
unknown-category error, producing no entry. -/
theorem C9_category_table :
    (∀ line d r ts, logLineMatch line = some r →
      mkDatetime r.year r.month r.day r.hour r.minute r.second = .ok ts →
      knownTags.contains r.type = false →
      parse_line line d = .error (.unknownEntryType r.type)) ∧
    (∀ line d r ts, logLineMatch line = some r →
      mkDatetime r.year r.month r.day r.hour r.minute r.second = .ok ts →
      (r.type = "info" →
        parse_line line d = .ok (some (.generic ts .info r.data), d)) ∧
      (r.type = "notify" →
        parse_line line d = .ok (some (.generic ts .notify r.data), d)) ∧
      (r.type = "warning" →
        parse_line line d = .ok (some (.generic ts .warning r.data), d)) ∧
      (r.type = "question" →
        parse_line line d = .ok (some (.generic ts .question r.data), d)) ∧
      (r.type = "hint" →
        parse_line line d = .ok (some (.generic ts .hint r.data), d)) ∧
      (r.type = "None" →
        parse_line line d = .ok (some (.generic ts .none_ r.data), d)) ∧
      (∀ f d', r.type = "combat" → parse_data r.data d = .ok (f, d') →
        parse_line line d = .ok (some (.combat ts r.data f), d'))) := by
  constructor
  · intro line d r ts hline hts htag
    simp [knownTags] at htag
    obtain ⟨hcombat, hinfo, hnotify, hwarning, hquestion, hhint, hnone⟩ := htag
    unfold parse_line
    simp only [hline, hts]
    rw [if_neg hcombat]
    unfold categoryOf
    rw [if_neg hinfo, if_neg hnotify, if_neg hwarning, if_neg hquestion,
        if_neg hhint, if_neg hnone]
  · intro line d r ts hline hts
    refine ⟨?_, ?_, ?_, ?_, ?_, ?_, ?_⟩
    · intro ht
      unfold parse_line
      simp only [hline, hts]
      rw [ht]
      simp [categoryOf]
    · intro ht
      unfold parse_line
      simp only [hline, hts]
      rw [ht]
      simp [categoryOf]
    · intro ht
      unfold parse_line
      simp only [hline, hts]
      rw [ht]
      simp [categoryOf]
    · intro ht
      unfold parse_line
      simp only [hline, hts]
      rw [ht]
      simp [categoryOf]
    · intro ht
      unfold parse_line
      simp only [hline, hts]
      rw [ht]
      simp [categoryOf]
    · intro ht
      unfold parse_line
      simp only [hline, hts]
      rw [ht]
      simp [categoryOf]
    · intro f d' ht hpd
      unfold parse_line
      simp only [hline, hts]
      rw [ht]
      simp [hpd]

/-- Witness for C9 (amended): a header line with a valid timestamp and the
unknown tag `bogus` raises the unknown-category error. -/
theorem C9_witness :
    parse_line "[ 2020.01.01 00:00:00 ] (bogus) x" .unknown =
      .error (.unknownEntryType "bogus") := by
  have h := C9_category_table.1 "[ 2020.01.01 00:00:00 ] (bogus) x"
    .unknown _ _ rfl rfl rfl
  exact h

/-! ### Claim C8 -/

/-- A failed `m.group(n)` lookup is the `IndexError` for that name. -/
theorem group_err (m : MRes) (n : String) (e : Err)
    (h : m.group n = .error e) : e = .indexError n := by
  unfold MRes.group at h
  split at h
  · exact Except.noConfusion h
  · injection h with h2
    exact h2.symm

/-- A failed `d[n]` lookup is the `KeyError` for that name. -/
theorem dget_err (m : MRes) (n : String) (e : Err)
    (h : m.dget n = .error e) : e = .keyError n := by
  unfold MRes.dget at h
  split at h
  · exact Except.noConfusion h
  · injection h with h2
    exact h2.symm

/-- Timestamp construction fails only with a calendar-range message. -/
theorem mkDatetime_err (y mo d h mi s : Nat) (e : Err)
    (he : mkDatetime y mo d h mi s = .error e) : ∃ msg, e = .dateError msg := by
  unfold mkDatetime at he
  split at he
  · exact ⟨_, (Except.error.inj he).symm⟩
  · split at he
    · exact ⟨_, (Except.error.inj he).symm⟩
    · split at he
      · exact ⟨_, (Except.error.inj he).symm⟩
      · split at he
        · exact ⟨_, (Except.error.inj he).symm⟩
        · split at he
          · exact ⟨_, (Except.error.inj he).symm⟩
          · split at he
            · exact ⟨_, (Except.error.inj he).symm⟩
            · exact Except.noConfusion he

/-- The category table fails only with the unknown-category error for the
offending tag. -/
theorem categoryOf_err (tag : String) (e : Err)
    (h : categoryOf tag = .error e) : e = .unknownEntryType tag := by
  unfold categoryOf at h
  split at h
  · exact Except.noConfusion h
  · split at h
    · exact Except.noConfusion h
    · split at h
      · exact Except.noConfusion h
      · split at h
        · exact Except.noConfusion h
        · split at h
          · exact Except.noConfusion h
          · split at h
            · exact Except.noConfusion h
            · exact (Except.error.inj h).symm

/-- `_parse_complex` fails only with its `ValueError` carrying the combat
text, or an `IndexError` from a group lookup. -/
theorem parse_complex_err (data : String) (e : Err)
    (h : parse_complex data = .error e) :
    e = .cannotParseComplex data ∨ ∃ k, e = .indexError k := by
  unfold parse_complex at h
  split at h
  · exact Or.inl (Except.error.inj h).symm
  · split at h
    · rename_i e0 h0
      exact Or.inr ⟨_, (Except.error.inj h).symm.trans (group_err _ _ _ h0)⟩
    · split at h
      · rename_i e0 h0
        exact Or.inr ⟨_, (Except.error.inj h).symm.trans (group_err _ _ _ h0)⟩
      · split at h
        · rename_i e0 h0
          exact Or.inr ⟨_, (Except.error.inj h).symm.trans (group_err _ _ _ h0)⟩
        · split at h
          · rename_i e0 h0
            exact Or.inr ⟨_, (Except.error.inj h).symm.trans (group_err _ _ _ h0)⟩
          · exact Except.noConfusion h

/-- `_parse_simple` fails only with its `ValueError` carrying the combat
text, or an `IndexError` from a group lookup. -/
theorem parse_simple_err (data : String) (e : Err)
    (h : parse_simple data = .error e) :
    e = .cannotParseSimple data ∨ ∃ k, e = .indexError k := by
  unfold parse_simple at h
  split at h
  · exact Or.inl (Except.error.inj h).symm
  · split at h
    · rename_i e0 h0
      exact Or.inr ⟨_, (Except.error.inj h).symm.trans (group_err _ _ _ h0)⟩
    · split at h
      · split at h
        · rename_i e0 h0
          exact Or.inr ⟨_, (Except.error.inj h).symm.trans (group_err _ _ _ h0)⟩
        · split at h
          · rename_i e0 h0
            exact Or.inr ⟨_, (Except.error.inj h).symm.trans (group_err _ _ _ h0)⟩
          · exact Except.noConfusion h
      · split at h
        · rename_i e0 h0
          exact Or.inr ⟨_, (Except.error.inj h).symm.trans (group_err _ _ _ h0)⟩
        · split at h
          · rename_i e0 h0
            exact Or.inr ⟨_, (Except.error.inj h).symm.trans (group_err _ _ _ h0)⟩
          · exact Except.noConfusion h

/-- The V3 attacker/target step fails only with the assertion failure or a
`KeyError`. -/
theorem v3AttTgt_err (m : MRes) (e : Err)
    (h : v3AttTgt m = .error e) :
    e = .assertionError ∨ ∃ k, e = .keyError k := by
  unfold v3AttTgt at h
  split at h
  · split at h
    · rename_i e0 h0
      exact Or.inr ⟨_, (Except.error.inj h).symm.trans (dget_err _ _ _ h0)⟩
    · split at h
      · split at h
        · split at h
          · rename_i e0 h0
            exact Or.inr ⟨_, (Except.error.inj h).symm.trans (dget_err _ _ _ h0)⟩
          · exact Except.noConfusion h
        · split at h
          · rename_i e0 h0
            exact Or.inr ⟨_, (Except.error.inj h).symm.trans (dget_err _ _ _ h0)⟩
          · exact Except.noConfusion h
      · exact Or.inl (Except.error.inj h).symm
  · split at h
    · rename_i e0 h0
      exact Or.inr ⟨_, (Except.error.inj h).symm.trans (dget_err _ _ _ h0)⟩
    · split at h
      · split at h
        · rename_i e0 h0
          exact Or.inr ⟨_, (Except.error.inj h).symm.trans (dget_err _ _ _ h0)⟩
        · exact Except.noConfusion h
      · exact Except.noConfusion h

/-- The V3 damage step fails only with a `KeyError` or `TypeError`. -/
theorem v3Damage_err (m : MRes) (e : Err)
    (h : v3Damage m = .error e) :
    (∃ k, e = .keyError k) ∨ e = .typeError := by
  unfold v3Damage at h
  split at h
  · split at h
    · rename_i e0 h0
      exact Or.inl ⟨_, (Except.error.inj h).symm.trans (dget_err _ _ _ h0)⟩
    · exact Except.noConfusion h
    · exact Or.inr (Except.error.inj h).symm
  · exact Except.noConfusion h

/-- `_parse_v3` fails only with its `ValueError` carrying the combat text,
the assertion failure, a `KeyError`, or a `TypeError`. -/
theorem parse_v3_err (data : String) (e : Err)
    (h : parse_v3 data = .error e) :
    e = .cannotParseV3 data ∨ e = .assertionError ∨
      (∃ k, e = .keyError k) ∨ e = .typeError := by
  unfold parse_v3 at h
  split at h
  · exact Or.inl (Except.error.inj h).symm
  · split at h
    · rename_i e0 h0
      rcases v3AttTgt_err _ _ h0 with h1 | h1
      · exact Or.inr (Or.inl ((Except.error.inj h).symm.trans h1))
      · exact Or.inr (Or.inr (Or.inl ⟨_, (Except.error.inj h).symm.trans h1.choose_spec⟩))
    · split at h
      · rename_i e0 h0
        split at h0
        · exact Except.noConfusion h0
        · exact Or.inr (Or.inr (Or.inl
            ⟨_, (Except.error.inj h).symm.trans (dget_err _ _ _ h0)⟩))
      · split at h
        · rename_i e0 h0
          rcases v3Damage_err _ _ h0 with h1 | h1
          · exact Or.inr (Or.inr (Or.inl ⟨_, (Except.error.inj h).symm.trans h1.choose_spec⟩))
          · exact Or.inr (Or.inr (Or.inr ((Except.error.inj h).symm.trans h1)))
        · exact Except.noConfusion h

/-- Every error the dialect resolver can raise, by kind: the only errors
carrying text are the per-dialect `ValueError`s, and they carry exactly the
combat text being parsed. -/
theorem parse_data_err (data : String) (d : Dialect) (e : Err)
    (h : parse_data data d = .error e) :
    e = .cannotParseComplex data ∨ e = .cannotParseSimple data ∨
      e = .cannotParseV3 data ∨ e = .assertionError ∨
      (∃ k, e = .keyError k) ∨ (∃ k, e = .indexError k) ∨ e = .typeError := by
  have hmap : ∀ (r : Except Err CombatFields) (d0 : Dialect),
      r.map (fun f => (f, d0)) = .error e → r = .error e := by
    intro r d0 hr
    cases r with
    | error e0 =>
      simp only [Except.map] at hr
      rw [Except.error.inj hr]
    | ok f => simp [Except.map] at hr
  cases d with
  | v3 =>
    rcases parse_v3_err data e (hmap _ _ h) with h1 | h1 | h1 | h1
    · exact Or.inr (Or.inr (Or.inl h1))
    · exact Or.inr (Or.inr (Or.inr (Or.inl h1)))
    · exact Or.inr (Or.inr (Or.inr (Or.inr (Or.inl h1))))
    · exact Or.inr (Or.inr (Or.inr (Or.inr (Or.inr (Or.inr h1)))))
  | complex =>
    rcases parse_complex_err data e (hmap _ _ h) with h1 | h1
    · exact Or.inl h1
    · exact Or.inr (Or.inr (Or.inr (Or.inr (Or.inr (Or.inl h1)))))
  | simplified =>
    rcases parse_simple_err data e (hmap _ _ h) with h1 | h1
    · exact Or.inr (Or.inl h1)
    · exact Or.inr (Or.inr (Or.inr (Or.inr (Or.inr (Or.inl h1)))))
  | unknown =>
    unfold parse_data at h
    split at h
    · rename_i hd
      exact absurd hd (by decide)
    · rename_i hd
      exact absurd hd (by decide)
    · rename_i hd
      exact absurd hd (by decide)
    split at h
    · exact Except.noConfusion h
    · rename_i e0 h0
      split at h
      · split at h
        · exact Except.noConfusion h
        · rename_i e2 h2
          split at h
          · rcases parse_complex_err data e (hmap _ _ h) with h1 | h1
            · exact Or.inl h1
            · exact Or.inr (Or.inr (Or.inr (Or.inr (Or.inr (Or.inl h1)))))
          · rcases parse_simple_err data e2
                ((Except.error.inj h) ▸ h2) with h1 | h1
            · exact Or.inr (Or.inl ((Except.error.inj h).symm ▸ h1))
            · exact Or.inr (Or.inr (Or.inr (Or.inr (Or.inr (Or.inl
                ((Except.error.inj h).symm ▸ h1))))))
      · rcases parse_v3_err data e0 h0 with h1 | h1 | h1 | h1
        · exact Or.inr (Or.inr (Or.inl ((Except.error.inj h).symm.trans h1)))
        · exact Or.inr (Or.inr (Or.inr (Or.inl
            ((Except.error.inj h).symm.trans h1))))
        · exact Or.inr (Or.inr (Or.inr (Or.inr (Or.inl
            ⟨_, (Except.error.inj h).symm.trans h1.choose_spec⟩))))
        · exact Or.inr (Or.inr (Or.inr (Or.inr (Or.inr (Or.inr
            ((Except.error.inj h).symm.trans h1))))))

/-- What an error of the entry classifier carries, relative to the line it
was raised on: the unknown-category error carries the line's own tag, the
dialect parse errors carry the line's combat text, and the remaining kinds
(calendar-range, assertion, lookup and type errors) carry no input text. -/
def errCarries (e : Err) (line : String) : Prop :=
  match e with
  | .unknownEntryType tag => ∃ r, logLineMatch line = some r ∧ r.type = tag
  | .cannotParseComplex s => ∃ r, logLineMatch line = some r ∧ r.data = s
  | .cannotParseSimple s => ∃ r, logLineMatch line = some r ∧ r.data = s
  | .cannotParseV3 s => ∃ r, logLineMatch line = some r ∧ r.data = s
  | _ => True

/-- C8 counterexample: a log whose only line has an out-of-range month
aborts with the calendar-range error, and that error carries no text from
the offending line at all (its payload is the fixed range message), refuting
the claim that the propagated error always carries the offending raw text. -/
theorem C8_counterexample :
    mkLog none ⟨2020, 1, 1, 0, 0, 0⟩
      ["[ 2020.13.01 00:00:00 ] (info) hello"] =
      .error (.dateError "month must be in 1..12") ∧
    Err.rawText (.dateError "month must be in 1..12") = none :=
  ⟨rfl, rfl⟩

/-- C8 as amended: log construction is all-or-nothing — any failing line
aborts the whole construction with that line's error and no partial `Log`
value is produced (an `Except.error` carries no `Log`); unknown-category
errors carry the offending tag and dialect parse errors carry the offending
combat text, while calendar-range timestamp errors carry only a field-range
message without the raw line. -/
theorem C8_all_or_nothing :
    (∀ lines e l t, buildEntries lines .unknown = .error e →
      mkLog l t lines = .error e) ∧
    (∀ (pre : List String) (line : String) (post : List String)
        (d : Dialect) es d' e,
      buildEntries pre d = .ok (es, d') →
      parse_line (rstrip line) d' = .error e →
      buildEntries (pre ++ line :: post) d = .error e) ∧
    (∀ line d e, parse_line line d = .error e → errCarries e line) := by
  refine ⟨?_, ?_, ?_⟩
  · intro lines e l t h
    simp [mkLog, h, Except.map]
  · intro pre line post d es d' e hok hfail
    induction pre generalizing d es with
    | nil =>
      have hok' : (Except.ok ([], d) : Except Err (List LogEntry × Dialect)) =
          .ok (es, d') := hok
      injection hok' with hpair
      have hd : d' = d := (congrArg Prod.snd hpair).symm
      rw [hd] at hfail
      show buildEntries (line :: post) d = .error e
      rw [buildEntries_cons, hfail]
    | cons l ls ih =>
      rw [buildEntries_cons] at hok
      split at hok
      · exact Except.noConfusion hok
      · rename_i entry? d1 hp
        split at hok
        · exact Except.noConfusion hok
        · rename_i es1 d2 hb
          injection hok with hpair
          have hd : d2 = d' := congrArg Prod.snd hpair
          rw [hd] at hb
          show buildEntries (l :: (ls ++ line :: post)) d = .error e
          rw [buildEntries_cons, hp]
          simp only [ih d1 es1 hb]
  · intro line d e h
    unfold parse_line at h
    split at h
    · exact Except.noConfusion h
    · rename_i r hline
      split at h
      · rename_i e0 hts
        have he : e = e0 := (Except.error.inj h).symm
        obtain ⟨msg, hmsg⟩ := mkDatetime_err _ _ _ _ _ _ _ hts
        rw [he, hmsg]
        trivial
      · split at h
        · split at h
          · rename_i e1 hpd
            have he : e = e1 := (Except.error.inj h).symm
            rcases parse_data_err _ _ _ hpd with h1 | h1 | h1 | h1 | h1 | h1 | h1
            · rw [he, h1]
              exact ⟨r, hline, rfl⟩
            · rw [he, h1]
              exact ⟨r, hline, rfl⟩
            · rw [he, h1]
              exact ⟨r, hline, rfl⟩
            · rw [he, h1]
              trivial
            · obtain ⟨k, hk⟩ := h1
              rw [he, hk]
              trivial
            · obtain ⟨k, hk⟩ := h1
              rw [he, hk]
              trivial
            · rw [he, h1]
              trivial
          · exact Except.noConfusion h
        · split at h
          · rename_i e1 hc
            have he : e = e1 := (Except.error.inj h).symm
            rw [he, categoryOf_err _ _ hc]
            exact ⟨r, hline, rfl⟩
          · exact Except.noConfusion h

/-- Witness for C8 (amended): the unknown-category error raised on a
concrete header line carries that line's own tag. -/
theorem C8_witness :
    errCarries (.unknownEntryType "bogus")
      "[ 2020.01.01 00:00:00 ] (bogus) y" :=
  C8_all_or_nothing.2.2 "[ 2020.01.01 00:00:00 ] (bogus) y" .unknown _ rfl
